import Mathlib

/-
Verification development for the ovh-checker repository.

The definitions below are a shallow embedding of the checker core:
  src/checker/main.py        (OVHChecker.parse_availability, OVHChecker.check_plan,
                              OVHChecker.run_check_cycle, get_check_interval,
                              get_notification_threshold)
  src/checker/database.py    (Database.get_config, get_last_status, save_inventory_status,
                              track_out_of_stock, mark_returned_to_stock,
                              upsert_datacenter_location, save_notification,
                              save_user_notification)
  src/checker/discord_notifier.py (send_discord_notification, send_notifications_to_all)
  src/checker/webhook_notifier.py (_is_private_ip, _resolve_and_validate_host,
                              WebhookNotifier.detect_webhook_type, validate_webhook_url,
                              send_stock_notification)

Conventions of the embedding:
  - Python/JSON values are modelled by the mutual inductive JVal below.
  - Database tables are lists of rows inside the DB structure.  Append-only
    tables that the checker reads back newest-first (inventory_status,
    out_of_stock_tracking) are stored newest-first (new rows are prepended);
    pure audit tables (notification_history, user_notification_history) are
    stored oldest-first (new rows are appended at the end).
  - Wall-clock time is a Nat counted in minutes (the SQL layer computes
    extract(epoch, now() - t) / 60 and Python truncates with int(); with a
    minute-resolution clock that truncation is the identity).
  - Network I/O (the HTTP POST of a webhook delivery, DNS resolution) is
    modelled by oracle functions passed in explicitly; the Python code
    catches every exception of a delivery attempt and turns it into a
    (False, error) pair, so a delivery outcome is a total function.
  - A raising database write is modelled with Except: Except.error carries
    the database state as already written when the exception escapes.
-/

/-! ## JSON / Python values (shape of the OVH API response) -/

mutual
inductive JVal where
  | null
  | bool (b : Bool)
  | num (n : Int)
  | str (s : String)
  | arr (elems : JList)
  | obj (fields : JFields)
deriving DecidableEq
inductive JList where
  | nil
  | cons (v : JVal) (tl : JList)
deriving DecidableEq
inductive JFields where
  | nil
  | cons (k : String) (v : JVal) (tl : JFields)
deriving DecidableEq
end

/-- Python dict lookup (dict.get with no default): first binding of the key. -/
def JFields.lookup : JFields → String → Option JVal
  | .nil, _ => none
  | .cons k v tl, key => if k = key then some v else tl.lookup key

/-- Python truthiness of a JSON value (None, False, 0, empty string or
container are falsy). -/
def pyFalsy : JVal → Bool
  | .null => true
  | .bool b => !b
  | .num n => n == 0
  | .str s => s == ""
  | .arr .nil => true
  | .arr (.cons _ _) => false
  | .obj .nil => true
  | .obj (.cons _ _ _) => false

/-! ## String helpers (ASCII lower-casing and substring search, used by
webhook_notifier.py via str.lower and the Python `in` operator) -/

def lower_char (c : Char) : Char :=
  if 65 ≤ c.toNat ∧ c.toNat ≤ 90 then Char.ofNat (c.toNat + 32) else c

def lower_str (s : String) : List Char := s.toList.map lower_char

def list_prefix_of : List Char → List Char → Bool
  | [], _ => true
  | _ :: _, [] => false
  | a :: as, b :: bs => a == b && list_prefix_of as bs

def list_infix_of (needle : List Char) : List Char → Bool
  | [] => needle.isEmpty
  | c :: tl => list_prefix_of needle (c :: tl) || list_infix_of needle tl

/-- Python `sub in s.lower()`: case-insensitive substring test. -/
def py_substr_lower (sub s : String) : Bool := list_infix_of sub.toList (lower_str s)

def starts_with_https (url : String) : Bool := list_prefix_of "https://".toList url.toList

/-- Model of Python builtin int(s) for strings: optional surrounding
whitespace, optional sign, then a non-empty run of decimal digits; none
models the ValueError raised otherwise.  (Python also allows underscore
digit grouping, which this model does not.) -/
def digits_val : List Char → Option Nat
  | [] => none
  | cs =>
    if cs.all (fun c => c.isDigit) then
      some (cs.foldl (fun acc c => acc * 10 + (c.toNat - 48)) 0)
    else none

def py_int_of_string (s : String) : Option Int :=
  let t := ((s.toList.dropWhile (fun c => c.isWhitespace)).reverse.dropWhile
      (fun c => c.isWhitespace)).reverse
  match t with
  | '+' :: rest => (digits_val rest).map (fun n => (n : Int))
  | '-' :: rest => (digits_val rest).map (fun n => -(n : Int))
  | _ => (digits_val t).map (fun n => (n : Int))

/-! ## parse_availability (src/checker/main.py lines 39-69) -/

/-- One element of the list returned by OVHChecker.parse_availability. -/
structure Avail where
  datacenter : JVal
  datacenter_code : JVal
  is_available : Bool
  linux_status : JVal
deriving DecidableEq

/-- The body of the for-loop of parse_availability for a single element of
the datacenters list: non-dict entries are skipped, fields default via
dict.get, and availability is the comparison linux_status == "available". -/
def parse_entry : JVal → Option Avail
  | .obj f =>
    let datacenter := (f.lookup "datacenter").getD (.str "unknown")
    let code := (f.lookup "code").getD (.str "")
    let linux := (f.lookup "linuxStatus").getD (.str "out-of-stock")
    some ⟨datacenter, code, linux == .str "available", linux⟩
  | _ => none

def parse_datacenters : JList → List Avail
  | .nil => []
  | .cons v tl =>
    match parse_entry v with
    | some a => a :: parse_datacenters tl
    | none => parse_datacenters tl

/-- OVHChecker.parse_availability.  A falsy response gives [], a missing or
non-list "datacenters" field gives [].  (A truthy non-dict response would
raise AttributeError in Python; that path is not exercised by any theorem
below.) -/
def parse_availability (data : JVal) : List Avail :=
  if pyFalsy data = true then []
  else
    match data with
    | .obj fields =>
      match (fields.lookup "datacenters").getD (.arr .nil) with
      | .arr dcs => parse_datacenters dcs
      | _ => []
    | _ => []

/-! ## Database rows and state (src/shared/models.py, src/checker/database.py) -/

structure InventoryStatusRow where
  plan_code : String
  subsidiary : String
  datacenter : JVal
  datacenter_code : JVal
  is_available : Bool
  linux_status : JVal
  raw_response : JVal
  checked_at : Nat
deriving DecidableEq

structure OutOfStockTrackingRow where
  plan_code : String
  subsidiary : String
  datacenter : JVal
  out_of_stock_since : Nat
  returned_to_stock_at : Option Nat
deriving DecidableEq

structure DatacenterLocationRow where
  datacenter_code : JVal
  subsidiary : String
  display_name : String
  city : String
  country : String
  country_code : String
  flag : String
  region : String
deriving DecidableEq

structure NotificationHistoryRow where
  plan_code : String
  subsidiary : String
  datacenter : JVal
  message : String
  success : Bool
  error_message : Option String
deriving DecidableEq

structure UserNotificationHistoryRow where
  user_id : Option Nat
  webhook_id : Option Nat
  plan_code : String
  datacenter : JVal
  message : String
  success : Bool
  error_message : Option String
  is_default_webhook : Bool
deriving DecidableEq

/-- The persistent state touched by the checker service. -/
structure DB where
  config : List (String × String)
  inventory_status : List InventoryStatusRow
  out_of_stock_tracking : List OutOfStockTrackingRow
  datacenter_locations : List DatacenterLocationRow
  notification_history : List NotificationHistoryRow
  user_notification_history : List UserNotificationHistoryRow
deriving DecidableEq

def db_empty : DB := ⟨[], [], [], [], [], []⟩

/-- Database.get_config. -/
def get_config (db : DB) (key : String) : Option String :=
  (db.config.find? (fun kv => kv.1 == key)).map (fun kv => kv.2)

/-- Database.get_last_status: most recent inventory row for the key
(ORDER BY checked_at DESC LIMIT 1; rows are stored newest-first). -/
def get_last_status (db : DB) (plan : String) (dc : JVal) (sub : String) : Option Bool :=
  (db.inventory_status.find? (fun r =>
      r.plan_code == plan && r.datacenter == dc && r.subsidiary == sub)).map
    (fun r => r.is_available)

/-- Database.save_inventory_status: unconditional append of one row. -/
def save_inventory_status (db : DB) (plan sub : String) (dc dc_code : JVal)
    (avail : Bool) (linux raw : JVal) (now : Nat) : DB :=
  { db with inventory_status := ⟨plan, sub, dc, dc_code, avail, linux, raw, now⟩ ::
      db.inventory_status }

/-- Row predicate of the WHERE clause shared by track_out_of_stock,
get_out_of_stock_duration and mark_returned_to_stock: same key and
returned_to_stock_at IS NULL. -/
def track_key_open (plan : String) (dc : JVal) (sub : String)
    (r : OutOfStockTrackingRow) : Bool :=
  r.plan_code == plan && r.datacenter == dc && r.subsidiary == sub &&
    r.returned_to_stock_at.isNone

/-- The open (returned_to_stock_at IS NULL) tracking rows for one key. -/
def open_rows (db : DB) (plan : String) (dc : JVal) (sub : String) :
    List OutOfStockTrackingRow :=
  db.out_of_stock_tracking.filter (track_key_open plan dc sub)

/-- Database.track_out_of_stock: insert an open tracking row only when the
key has no open row yet. -/
def track_out_of_stock (db : DB) (plan : String) (dc : JVal) (sub : String)
    (now : Nat) : DB :=
  if (open_rows db plan dc sub).isEmpty then
    { db with out_of_stock_tracking := ⟨plan, sub, dc, now, none⟩ ::
        db.out_of_stock_tracking }
  else db

/-- Database.mark_returned_to_stock: read the open duration in minutes (a
falsy 0 becomes None), then close every open row of the key.  Returns the
duration together with the new state. -/
def mark_returned_to_stock (db : DB) (plan : String) (dc : JVal) (sub : String)
    (now : Nat) : Option Nat × DB :=
  let minutes : Option Nat :=
    match (open_rows db plan dc sub).head? with
    | none => none
    | some r =>
      let m := now - r.out_of_stock_since
      if m = 0 then none else some m
  let db' := { db with out_of_stock_tracking :=
      db.out_of_stock_tracking.map (fun r =>
        if track_key_open plan dc sub r then { r with returned_to_stock_at := some now }
        else r) }
  (minutes, db')

/-- The location fields produced by catalog_fetcher.get_datacenter_location. -/
structure DatacenterLocationInfo where
  display_name : String
  city : String
  country : String
  country_code : String
  flag : String
  region : String
deriving DecidableEq

/-- Database.upsert_datacenter_location: ON CONFLICT (datacenter_code,
subsidiary) DO UPDATE, with the Python fallback display_name or city. -/
def upsert_datacenter_location (db : DB) (code : JVal) (sub : String)
    (info : DatacenterLocationInfo) : DB :=
  let name := if info.display_name = "" then info.city else info.display_name
  let row : DatacenterLocationRow :=
    ⟨code, sub, name, info.city, info.country, info.country_code, info.flag, info.region⟩
  { db with datacenter_locations := row ::
      db.datacenter_locations.filter (fun r =>
        !(r.datacenter_code == code && r.subsidiary == sub)) }

/-- Database.save_notification: append one system notification-history row. -/
def save_notification (db : DB) (plan : String) (dc : JVal) (message : String)
    (success : Bool) (error_message : Option String) (sub : String) : DB :=
  { db with notification_history :=
      db.notification_history ++ [⟨plan, sub, dc, message, success, error_message⟩] }

/-- Database.save_user_notification: append one per-user notification-history
row. -/
def save_user_notification (db : DB) (plan : String) (dc : JVal) (message : String)
    (success : Bool) (error_message : Option String)
    (user_id webhook_id : Option Nat) (is_default : Bool) : DB :=
  { db with user_notification_history :=
      db.user_notification_history ++
        [⟨user_id, webhook_id, plan, dc, message, success, error_message, is_default⟩] }

/-! ## Dynamic configuration (src/checker/main.py lines 175-194) -/

/-- get_check_interval: clamp a stored numeric value to [30, 3600] seconds,
fall back to the static settings default on a missing, empty or non-numeric
value (int() raising ValueError is caught). -/
def get_check_interval (stored : Option String) (settings_default : Int) : Int :=
  match stored with
  | none => settings_default
  | some s =>
    if s = "" then settings_default
    else
      match py_int_of_string s with
      | some n => max 30 (min 3600 n)
      | none => settings_default

/-- get_notification_threshold: clamp a stored numeric value to [1, 1440]
minutes, fall back to the static settings default otherwise. -/
def get_notification_threshold (stored : Option String) (settings_default : Int) : Int :=
  match stored with
  | none => settings_default
  | some s =>
    if s = "" then settings_default
    else
      match py_int_of_string s with
      | some n => max 1 (min 1440 n)
      | none => settings_default

/-! ## Notification fanout (src/checker/discord_notifier.py) -/

/-- One row of Database.get_users_subscribed_to_plan: an active subscriber
with an active webhook.  (The webhook_name column only decorates the embed
footer and is not modelled.) -/
structure Subscriber where
  user_id : Nat
  webhook_id : Nat
  webhook_url : String
deriving DecidableEq

/-- send_discord_notification (lines 10-84).  The whole HTTP interaction of
one attempt (2xx check, non-2xx error text, raised exception caught and
stringified) is the transport oracle; an empty URL is rejected before any
network use, and the function never raises. -/
def send_discord_notification (transport : String → Bool × Option String)
    (webhook_url : String) : Bool × Option String :=
  if webhook_url = "" then (false, some "Discord webhook URL not configured")
  else transport webhook_url

def fanout_user_message (minutes : Nat) : String :=
  "Back in stock after " ++ toString minutes ++ " minutes"

def fanout_default_message (minutes : Nat) : String :=
  fanout_user_message minutes ++ " (default webhook)"

structure DefaultWebhookResult where
  sent : Bool
  success : Bool
  error : Option String
deriving DecidableEq

structure UserWebhookResult where
  user_id : Nat
  webhook_id : Nat
  success : Bool
  error : Option String
deriving DecidableEq

structure FanoutResult where
  default_webhook : DefaultWebhookResult
  user_webhooks : List UserWebhookResult
deriving DecidableEq

/-- Environment of one check: the oracles for everything the checker calls
that is not part of the DB state it mutates. -/
structure Env where
  /-- Whether upsert_datacenter_location raises for this datacenter code
  (a database error, or get_datacenter_location itself raising when the
  code is not a string). -/
  loc_fail : JVal → Bool
  /-- catalog_fetcher.get_datacenter_location (a pure lookup table). -/
  loc_info : JVal → DatacenterLocationInfo
  /-- Outcome of one webhook HTTP POST (send_discord_notification try-block). -/
  transport : String → Bool × Option String
  /-- Database.get_users_subscribed_to_plan plan subsidiary (user tables are
  not part of the checker-mutated state). -/
  subscribers : String → String → List Subscriber
  /-- settings.notification_threshold_minutes (static default). -/
  settings_threshold : Int

def fanout_step (env : Env) (plan : String) (dc : JVal) (minutes : Nat)
    (acc : DB × List UserWebhookResult) (u : Subscriber) :
    DB × List UserWebhookResult :=
  let r := send_discord_notification env.transport u.webhook_url
  let db := save_user_notification acc.1 plan dc (fanout_user_message minutes)
      r.1 r.2 (some u.user_id) (some u.webhook_id) false
  (db, acc.2 ++ [⟨u.user_id, u.webhook_id, r.1, r.2⟩])

/-- send_notifications_to_all (lines 87-181): attempt the default system
webhook when configured (recording both a system and a per-user history
row), then attempt every subscriber in order, recording one history row per
attempt.  No attempt outcome influences any later attempt. -/
def send_notifications_to_all (env : Env) (db : DB) (plan : String) (dc : JVal)
    (minutes : Nat) (sub : String) : DB × FanoutResult :=
  let step1 : DB × DefaultWebhookResult :=
    match get_config db "discord_webhook_url" with
    | some u =>
      if u = "" then (db, ⟨false, false, none⟩)
      else
        let r := send_discord_notification env.transport u
        let db := save_notification db plan dc (fanout_default_message minutes) r.1 r.2 sub
        let db := save_user_notification db plan dc (fanout_user_message minutes)
            r.1 r.2 none none true
        (db, ⟨true, r.1, r.2⟩)
    | none => (db, ⟨false, false, none⟩)
  let step2 := (env.subscribers plan sub).foldl (fanout_step env plan dc minutes)
      (step1.1, [])
  (step2.1, ⟨step1.2, step2.2⟩)

/-! ## check_plan (src/checker/main.py lines 71-158) -/

/-- A call of send_notifications_to_all made by check_plan (one
became-available event past the threshold). -/
structure FanoutCall where
  plan_code : String
  datacenter : JVal
  out_of_stock_minutes : Nat
deriving DecidableEq

/-- The body of the check_plan per-datacenter loop after the location
upsert: read the previous status, append the new observation
unconditionally, then branch on new vs previous availability.
(get_plan_info, read before the fanout, is a pure read and not modelled.) -/
def process_after_location (env : Env) (plan sub : String) (now : Nat) (a : Avail)
    (raw : JVal) (db : DB) : Except DB (DB × List FanoutCall) :=
  let was_available := get_last_status db plan a.datacenter sub
  let db := save_inventory_status db plan sub a.datacenter a.datacenter_code
      a.is_available a.linux_status raw now
  if a.is_available = true then
    if was_available = some false then
      let md := mark_returned_to_stock db plan a.datacenter sub now
      let threshold := get_notification_threshold
          (get_config md.2 "notification_threshold_minutes") env.settings_threshold
      match md.1 with
      | some m =>
        if m ≠ 0 ∧ (m : Int) ≥ threshold then
          .ok ((send_notifications_to_all env md.2 plan a.datacenter m sub).1,
            [⟨plan, a.datacenter, m⟩])
        else .ok (md.2, [])
      | none => .ok (md.2, [])
    else .ok (db, [])
  else .ok (track_out_of_stock db plan a.datacenter sub now, [])

/-- One iteration of the check_plan loop: upsert the datacenter location
when the code is truthy (lines 92-104; this await has no try/except, so a
raising upsert escapes check_plan), then process the observation. -/
def process_availability (env : Env) (plan sub : String) (now : Nat) (a : Avail)
    (raw : JVal) (db : DB) : Except DB (DB × List FanoutCall) :=
  if pyFalsy a.datacenter_code = true then
    process_after_location env plan sub now a raw db
  else if env.loc_fail a.datacenter_code = true then .error db
  else
    process_after_location env plan sub now a raw
      (upsert_datacenter_location db a.datacenter_code sub (env.loc_info a.datacenter_code))

def check_plan_loop (env : Env) (plan sub : String) (now : Nat) (raw : JVal) :
    List Avail → DB → List FanoutCall → Except DB (DB × List FanoutCall)
  | [], db, evs => .ok (db, evs)
  | a :: rest, db, evs =>
    match process_availability env plan sub now a raw db with
    | .error db' => .error db'
    | .ok (db', evs') => check_plan_loop env plan sub now raw rest db' (evs ++ evs')

/-- OVHChecker.check_plan for one plan: data is the fetch_availability
result (none models a network error or non-200 upstream answer); an absent
or empty datacenter list returns with no state written. -/
def check_plan (env : Env) (plan sub : String) (data : Option JVal) (db : DB)
    (now : Nat) : Except DB (DB × List FanoutCall) :=
  match data with
  | none => .ok (db, [])
  | some d =>
    let avails := parse_availability d
    if avails.isEmpty then .ok (db, [])
    else check_plan_loop env plan sub now d avails db []

/-- The DB state an Except result carries (writes made before an exception
escaped check_plan persist). -/
def state_of : Except DB (DB × List FanoutCall) → DB
  | .ok (db, _) => db
  | .error db => db

/-- The fanout calls of a completed check (an aborted check made none
visible to its caller). -/
def events_of : Except DB (DB × List FanoutCall) → List FanoutCall
  | .ok (_, evs) => evs
  | .error _ => []

/-- OVHChecker.run_check_cycle: every monitored plan is attempted in order;
a raising check_plan is caught at the per-plan boundary (lines 166-172) and
the cycle continues.  Each plan carries its own fetched data; the Bool per
plan records whether its check completed without raising. -/
def run_check_cycle (env : Env) (sub : String) (plans : List (String × Option JVal))
    (db : DB) (now : Nat) : DB × List Bool :=
  plans.foldl (fun acc pl =>
    match check_plan env pl.1 sub pl.2 acc.1 now with
    | .ok (db', _) => (db', acc.2 ++ [true])
    | .error db' => (db', acc.2 ++ [false])) (db, [])

/-! ## Webhook validation and dispatch (src/checker/webhook_notifier.py) -/

/-- Result of ipaddress.ip_address(s) for one resolved address string:
valid = false models the ValueError branch; the other fields are the
is_private, is_loopback, is_reserved, is_link_local, is_multicast and
is_global properties of the parsed address. -/
structure IPClass where
  valid : Bool
  is_private : Bool
  is_loopback : Bool
  is_reserved : Bool
  is_link_local : Bool
  is_multicast : Bool
  is_global : Bool
deriving DecidableEq

/-- _is_private_ip (lines 15-29): an unparsable address is rejected, and a
parsed one is internal when any of the listed properties holds or it is not
global. -/
def is_private_ip (classify : String → IPClass) (ip_str : String) : Bool :=
  let c := classify ip_str
  if c.valid = false then true
  else c.is_private || c.is_loopback || c.is_reserved || c.is_link_local ||
    c.is_multicast || !c.is_global

/-- _resolve_and_validate_host (lines 32-47): resolve every address of the
hostname (the resolver oracle models socket.getaddrinfo, its error case the
gaierror branch) and reject on the first internal one. -/
def resolve_and_validate_host (resolver : String → Except String (List String))
    (classify : String → IPClass) (hostname : String) : Bool × String :=
  match resolver hostname with
  | .error e => (false, "Failed to resolve webhook hostname: " ++ e)
  | .ok ips =>
    match ips.find? (fun ip => is_private_ip classify ip) with
    | some ip => (false, "Webhook URL resolves to private/internal IP: " ++ ip)
    | none => (true, "")

def DISCORD_HOSTS : List String := ["discord.com", "discordapp.com"]
def SLACK_HOSTS : List String := ["hooks.slack.com"]

/-- WebhookNotifier.detect_webhook_type (lines 55-65): a case-insensitive
substring search for a known provider host anywhere in the URL string. -/
def detect_webhook_type (url : String) : String :=
  if url = "" then "unknown"
  else if DISCORD_HOSTS.any (fun h => py_substr_lower h url) then "discord"
  else if SLACK_HOSTS.any (fun h => py_substr_lower h url) then "slack"
  else "unknown"

/-- Model of urlparse(url).hostname for the https URLs reaching it inside
validate_webhook_url: the netloc runs to the first slash, question mark or
hash; userinfo before a last at-sign and a port after a colon are dropped;
the result is lower-cased.  An empty result models hostname None.  (IPv6
bracket syntax is not modelled.) -/
def url_hostname (url : String) : String :=
  if starts_with_https url = true then
    let netloc := (url.toList.drop 8).takeWhile (fun c =>
      !(c == '/') && !(c == '?') && !(c == '#'))
    let after_at := (netloc.reverse.takeWhile (fun c => !(c == '@'))).reverse
    let host := after_at.takeWhile (fun c => !(c == ':'))
    String.mk (host.map lower_char)
  else ""

/-- WebhookNotifier.validate_webhook_url (lines 68-99): format checks first
(required, https, a recognisable provider, an optional explicit-type match),
then the SSRF resolution check; no network call to the destination is made
anywhere in it. -/
def validate_webhook_url (resolver : String → Except String (List String))
    (classify : String → IPClass) (url : String) (webhook_type : Option String) :
    Bool × String :=
  if url = "" then (false, "Webhook URL is required")
  else if starts_with_https url = false then (false, "Webhook URL must use HTTPS")
  else
    let detected := detect_webhook_type url
    if (match webhook_type with
        | some wt => wt != "" && detected != wt
        | none => false) = true then
      (false, "URL does not match webhook type " ++ detected)
    else if detected = "unknown" then
      (false, "URL must be a valid Discord or Slack webhook URL")
    else
      let hostname := url_hostname url
      if hostname = "" then (false, "Invalid webhook URL: no hostname")
      else
        match resolve_and_validate_host resolver classify hostname with
        | (true, _) => (true, detected)
        | (false, err) => (false, "Invalid webhook URL: " ++ err)

/-- WebhookNotifier.send_stock_notification (lines 118-143): dispatch on the
explicit type tag; an unknown tag is rejected with no payload built and no
POST.  The second component lists the URLs actually posted to (via
_post_webhook); payload construction is pure formatting and not modelled. -/
def send_stock_notification (transport : String → Bool × Option String)
    (webhook_type webhook_url : String) : (Bool × Option String) × List String :=
  if webhook_type = "discord" then (transport webhook_url, [webhook_url])
  else if webhook_type = "slack" then (transport webhook_url, [webhook_url])
  else ((false, some ("Unknown webhook type: " ++ webhook_type)), [])

/-! ## General helper lemmas -/

lemma jval_beq_iff (a b : JVal) : (a == b) = true ↔ a = b := beq_iff_eq

lemma track_key_open_iff (plan : String) (dc : JVal) (sub : String)
    (r : OutOfStockTrackingRow) :
    track_key_open plan dc sub r = true ↔
      r.plan_code = plan ∧ r.datacenter = dc ∧ r.subsidiary = sub ∧
        r.returned_to_stock_at = none := by
  simp [track_key_open, Option.isNone_iff_eq_none, and_assoc]

lemma open_rows_mk (c : List (String × String)) (i : List InventoryStatusRow)
    (t : List OutOfStockTrackingRow) (l : List DatacenterLocationRow)
    (n : List NotificationHistoryRow) (u : List UserNotificationHistoryRow)
    (plan : String) (dc : JVal) (sub : String) :
    open_rows ⟨c, i, t, l, n, u⟩ plan dc sub = t.filter (track_key_open plan dc sub) := rfl

lemma open_rows_tracking_eq {db db' : DB}
    (h : db'.out_of_stock_tracking = db.out_of_stock_tracking)
    (plan : String) (dc : JVal) (sub : String) :
    open_rows db' plan dc sub = open_rows db plan dc sub := by
  simp [open_rows, h]

lemma get_config_config_eq {db db' : DB} (h : db'.config = db.config) (key : String) :
    get_config db' key = get_config db key := by
  simp [get_config, h]

lemma get_last_status_inventory_eq {db db' : DB}
    (h : db'.inventory_status = db.inventory_status)
    (plan : String) (dc : JVal) (sub : String) :
    get_last_status db' plan dc sub = get_last_status db plan dc sub := by
  simp [get_last_status, h]

lemma save_inventory_status_fields (db : DB) (plan sub : String) (dc dc_code : JVal)
    (avail : Bool) (linux raw : JVal) (now : Nat) :
    (save_inventory_status db plan sub dc dc_code avail linux raw now).config = db.config ∧
    (save_inventory_status db plan sub dc dc_code avail linux raw now).inventory_status =
      ⟨plan, sub, dc, dc_code, avail, linux, raw, now⟩ :: db.inventory_status ∧
    (save_inventory_status db plan sub dc dc_code avail linux raw now).out_of_stock_tracking =
      db.out_of_stock_tracking := by
  simp [save_inventory_status]

lemma upsert_datacenter_location_fields (db : DB) (code : JVal) (sub : String)
    (info : DatacenterLocationInfo) :
    (upsert_datacenter_location db code sub info).config = db.config ∧
    (upsert_datacenter_location db code sub info).inventory_status = db.inventory_status ∧
    (upsert_datacenter_location db code sub info).out_of_stock_tracking =
      db.out_of_stock_tracking := by
  simp [upsert_datacenter_location]

lemma mark_returned_fields (db : DB) (plan : String) (dc : JVal) (sub : String) (now : Nat) :
    (mark_returned_to_stock db plan dc sub now).2.config = db.config ∧
    (mark_returned_to_stock db plan dc sub now).2.inventory_status = db.inventory_status ∧
    (mark_returned_to_stock db plan dc sub now).2.notification_history =
      db.notification_history ∧
    (mark_returned_to_stock db plan dc sub now).2.user_notification_history =
      db.user_notification_history := by
  simp [mark_returned_to_stock]

lemma track_out_of_stock_fields (db : DB) (plan : String) (dc : JVal) (sub : String)
    (now : Nat) :
    (track_out_of_stock db plan dc sub now).config = db.config ∧
    (track_out_of_stock db plan dc sub now).inventory_status = db.inventory_status ∧
    (track_out_of_stock db plan dc sub now).notification_history =
      db.notification_history ∧
    (track_out_of_stock db plan dc sub now).user_notification_history =
      db.user_notification_history := by
  unfold track_out_of_stock
  split <;> simp

/-- Characterisation of the fanout fold over the subscriber list: one history
row and one result entry per subscriber, each a function of that subscriber
alone. -/
lemma fanout_fold_spec (env : Env) (plan : String) (dc : JVal) (minutes : Nat) :
    ∀ (users : List Subscriber) (db : DB) (acc : List UserWebhookResult),
      users.foldl (fanout_step env plan dc minutes) (db, acc) =
        ({ db with user_notification_history := db.user_notification_history ++
            users.map (fun u =>
              ⟨some u.user_id, some u.webhook_id, plan, dc, fanout_user_message minutes,
               (send_discord_notification env.transport u.webhook_url).1,
               (send_discord_notification env.transport u.webhook_url).2, false⟩) },
         acc ++ users.map (fun u =>
           ⟨u.user_id, u.webhook_id,
            (send_discord_notification env.transport u.webhook_url).1,
            (send_discord_notification env.transport u.webhook_url).2⟩))
  | [], db, acc => by simp
  | u :: rest, db, acc => by
    rw [List.foldl_cons, fanout_step, fanout_fold_spec env plan dc minutes rest]
    simp [save_user_notification]

lemma send_notifications_fields (env : Env) (db : DB) (plan : String) (dc : JVal)
    (minutes : Nat) (sub : String) :
    (send_notifications_to_all env db plan dc minutes sub).1.config = db.config ∧
    (send_notifications_to_all env db plan dc minutes sub).1.inventory_status =
      db.inventory_status ∧
    (send_notifications_to_all env db plan dc minutes sub).1.out_of_stock_tracking =
      db.out_of_stock_tracking := by
  rcases h : get_config db "discord_webhook_url" with _ | u
  · simp only [send_notifications_to_all, h]
    rw [fanout_fold_spec]
    simp
  · by_cases hu : u = ""
    · simp only [send_notifications_to_all, h, hu, if_pos]
      rw [fanout_fold_spec]
      simp
    · simp only [send_notifications_to_all, h, if_neg hu]
      rw [fanout_fold_spec]
      simp [save_notification, save_user_notification]

/-! ## Claim theorems -/

/-- C10: parse_availability marks an entry available iff its linuxStatus
field equals exactly the string "available"; a missing linuxStatus defaults
to "out-of-stock"; non-dict entries are skipped; a missing or non-list
datacenters field yields []; a None or empty response yields []. -/
theorem spec_c10 :
    parse_availability .null = [] ∧
    parse_availability (.obj .nil) = [] ∧
    (∀ fields : JFields, fields.lookup "datacenters" = none →
      parse_availability (.obj fields) = []) ∧
    (∀ (fields : JFields) (v : JVal), fields.lookup "datacenters" = some v →
      (∀ l : JList, v ≠ .arr l) → parse_availability (.obj fields) = []) ∧
    (∀ (fields : JFields) (dcs : JList), fields.lookup "datacenters" = some (.arr dcs) →
      parse_availability (.obj fields) = parse_datacenters dcs) ∧
    (∀ v : JVal, (∀ f : JFields, v ≠ .obj f) → parse_entry v = none) ∧
    (∀ (v : JVal) (tl : JList), parse_entry v = none →
      parse_datacenters (.cons v tl) = parse_datacenters tl) ∧
    (∀ f : JFields, (parse_entry (.obj f)).map (fun a => a.is_available) =
      some (decide (f.lookup "linuxStatus" = some (.str "available")))) ∧
    (∀ f : JFields, f.lookup "linuxStatus" = none →
      (parse_entry (.obj f)).map (fun a => a.linux_status) = some (.str "out-of-stock")) := by
  refine ⟨rfl, rfl, ?_, ?_, ?_, ?_, ?_, ?_, ?_⟩
  · intro fields h
    cases fields with
    | nil => rfl
    | cons k v tl => simp [parse_availability, pyFalsy, h, parse_datacenters]
  · intro fields v h hv
    cases fields with
    | nil => simp [JFields.lookup] at h
    | cons k w tl =>
      cases v with
      | arr l => exact absurd rfl (hv l)
      | null => simp [parse_availability, pyFalsy, h]
      | bool b => simp [parse_availability, pyFalsy, h]
      | num n => simp [parse_availability, pyFalsy, h]
      | str s => simp [parse_availability, pyFalsy, h]
      | obj f => simp [parse_availability, pyFalsy, h]
  · intro fields dcs h
    cases fields with
    | nil => simp [JFields.lookup] at h
    | cons k w tl => simp [parse_availability, pyFalsy, h]
  · intro v hv
    cases v with
    | obj f => exact absurd rfl (hv f)
    | null => rfl
    | bool b => rfl
    | num n => rfl
    | str s => rfl
    | arr l => rfl
  · intro v tl h
    simp [parse_datacenters, h]
  · intro f
    have hbe : ∀ v : JVal, (v == JVal.str "available") = decide (v = JVal.str "available") :=
      fun _ => rfl
    rcases h : f.lookup "linuxStatus" with _ | v
    · simp [parse_entry, h, hbe]
    · simp [parse_entry, h, hbe]
  · intro f h
    simp [parse_entry, h]

/-- Witness for C10 at concrete inputs: a dict with an unrelated key only, a
non-list datacenters field, an empty datacenters list, a non-dict entry, and
an entry dict without a linuxStatus key. -/
theorem spec_c10_witness :
    parse_availability (.obj (.cons "x" .null .nil)) = [] ∧
    parse_availability (.obj (.cons "datacenters" (.str "z") .nil)) = [] ∧
    parse_availability (.obj (.cons "datacenters" (.arr .nil) .nil)) =
      parse_datacenters .nil ∧
    parse_entry (.str "q") = none ∧
    parse_datacenters (.cons (.str "q") .nil) = parse_datacenters .nil ∧
    (parse_entry (.obj .nil)).map (fun a => a.is_available) =
      some (decide (JFields.nil.lookup "linuxStatus" = some (.str "available"))) ∧
    (parse_entry (.obj .nil)).map (fun a => a.linux_status) = some (.str "out-of-stock") :=
  ⟨spec_c10.2.2.1 _ (by decide),
   spec_c10.2.2.2.1 _ (.str "z") (by decide) (fun l h => JVal.noConfusion h),
   spec_c10.2.2.2.2.1 _ .nil (by decide),
   spec_c10.2.2.2.2.2.1 _ (fun f h => JVal.noConfusion h),
   spec_c10.2.2.2.2.2.2.1 _ .nil (spec_c10.2.2.2.2.2.1 _ (fun f h => JVal.noConfusion h)),
   spec_c10.2.2.2.2.2.2.2.1 .nil,
   spec_c10.2.2.2.2.2.2.2.2 .nil (by decide)⟩

/-- C7: a stored numeric value is clamped to [30, 3600] seconds
(get_check_interval) respectively [1, 1440] minutes
(get_notification_threshold) before use, and a missing or non-numeric
stored value falls back to the static settings default; both functions are
total, so no error escapes. -/
theorem spec_c7 :
    (∀ (s : String) (n d : Int), py_int_of_string s = some n →
      get_check_interval (some s) d = max 30 (min 3600 n) ∧
      30 ≤ get_check_interval (some s) d ∧ get_check_interval (some s) d ≤ 3600) ∧
    (∀ d : Int, get_check_interval none d = d) ∧
    (∀ (s : String) (d : Int), py_int_of_string s = none →
      get_check_interval (some s) d = d) ∧
    (∀ (s : String) (n d : Int), py_int_of_string s = some n →
      get_notification_threshold (some s) d = max 1 (min 1440 n) ∧
      1 ≤ get_notification_threshold (some s) d ∧
      get_notification_threshold (some s) d ≤ 1440) ∧
    (∀ d : Int, get_notification_threshold none d = d) ∧
    (∀ (s : String) (d : Int), py_int_of_string s = none →
      get_notification_threshold (some s) d = d) := by
  have hempty : py_int_of_string "" = none := by decide
  refine ⟨?_, fun d => rfl, ?_, ?_, fun d => rfl, ?_⟩
  · intro s n d h
    have hs : ¬s = "" := by rintro rfl; rw [hempty] at h; exact Option.noConfusion h
    rw [get_check_interval]
    simp only [if_neg hs, h]
    exact ⟨trivial, le_max_left _ _, max_le (by norm_num) (min_le_left _ _)⟩
  · intro s d h
    rw [get_check_interval]
    by_cases hs : s = ""
    · simp [hs]
    · simp only [if_neg hs, h]
  · intro s n d h
    have hs : ¬s = "" := by rintro rfl; rw [hempty] at h; exact Option.noConfusion h
    rw [get_notification_threshold]
    simp only [if_neg hs, h]
    exact ⟨trivial, le_max_left _ _, max_le (by norm_num) (min_le_left _ _)⟩
  · intro s d h
    rw [get_notification_threshold]
    by_cases hs : s = ""
    · simp [hs]
    · simp only [if_neg hs, h]

/-- Witness for C7 at concrete inputs: the stored string "90210" parses and
is clamped, the stored string "abc" does not parse and yields the default. -/
theorem spec_c7_witness :
    (get_check_interval (some "90210") 120 = max 30 (min 3600 90210) ∧
      30 ≤ get_check_interval (some "90210") 120 ∧
      get_check_interval (some "90210") 120 ≤ 3600) ∧
    get_check_interval (some "abc") 120 = 120 ∧
    (get_notification_threshold (some "90210") 60 = max 1 (min 1440 90210) ∧
      1 ≤ get_notification_threshold (some "90210") 60 ∧
      get_notification_threshold (some "90210") 60 ≤ 1440) ∧
    get_notification_threshold (some "abc") 60 = 60 :=
  ⟨spec_c7.1 "90210" 90210 120 (by decide),
   spec_c7.2.2.1 "abc" 120 (by decide),
   spec_c7.2.2.2.1 "90210" 90210 60 (by decide),
   spec_c7.2.2.2.2.2 "abc" 60 (by decide)⟩

/-- The per-plan try/except of run_check_cycle records one outcome per plan:
every monitored plan is attempted, whatever the earlier plans did. -/
lemma run_check_cycle_outcomes (env : Env) (sub : String) (now : Nat) :
    ∀ (plans : List (String × Option JVal)) (db : DB) (acc : List Bool),
      ((plans.foldl (fun acc pl =>
          match check_plan env pl.1 sub pl.2 acc.1 now with
          | .ok (db', _) => (db', acc.2 ++ [true])
          | .error db' => (db', acc.2 ++ [false])) (db, acc)).2).length =
        acc.length + plans.length
  | [], db, acc => by simp
  | pl :: rest, db, acc => by
    rw [List.foldl_cons]
    rcases h : check_plan env pl.1 sub pl.2 db now with db' | p
    · simp only [h, run_check_cycle_outcomes env sub now rest]
      simp
      omega
    · rcases p with ⟨db', evs⟩
      simp only [h, run_check_cycle_outcomes env sub now rest]
      simp
      omega

/-- C6: a failed upstream fetch (data = none) or a response with no
datacenters makes check_plan return with the state unchanged and no fanout;
and run_check_cycle still produces one outcome per monitored plan, so the
cycle proceeds to every target. -/
theorem spec_c6 :
    (∀ (env : Env) (plan sub : String) (db : DB) (now : Nat),
      check_plan env plan sub none db now = .ok (db, [])) ∧
    (∀ (env : Env) (plan sub : String) (data : JVal) (db : DB) (now : Nat),
      parse_availability data = [] →
      check_plan env plan sub (some data) db now = .ok (db, [])) ∧
    (∀ (env : Env) (sub : String) (plans : List (String × Option JVal)) (db : DB)
      (now : Nat), ((run_check_cycle env sub plans db now).2).length = plans.length) := by
  refine ⟨fun env plan sub db now => rfl, ?_, ?_⟩
  · intro env plan sub data db now h
    simp [check_plan, h]
  · intro env sub plans db now
    have := run_check_cycle_outcomes env sub now plans db []
    simpa [run_check_cycle] using this

/-- Witness for C6: a response whose datacenters list is empty resolves to
no parsed availability, and check_plan leaves any state unchanged; the
cycle outcome list of a two-plan cycle (one failing fetch) has two
entries. -/
theorem spec_c6_witness :
    check_plan ⟨fun _ => false, fun _ => ⟨"", "", "", "", "", ""⟩, fun _ => (true, none),
        fun _ _ => [], 60⟩ "vps-c6" "US"
      (some (.obj (.cons "datacenters" (.arr .nil) .nil))) db_empty 7 = .ok (db_empty, []) ∧
    ((run_check_cycle ⟨fun _ => false, fun _ => ⟨"", "", "", "", "", ""⟩,
        fun _ => (true, none), fun _ _ => [], 60⟩ "US"
        [("a", none), ("b", none)] db_empty 7).2).length = 2 :=
  ⟨spec_c6.2.1 _ "vps-c6" "US" _ db_empty 7 (by decide),
   spec_c6.2.2 _ "US" [("a", none), ("b", none)] db_empty 7⟩

/-- C9 counterexample: detect_webhook_type does not classify by the URL
host.  A URL whose parsed host is attacker.example but whose path contains
discord.com is classified as a Discord destination, although its host is in
neither known host list; a host-based classifier would return unknown. -/
theorem spec_c9_counterexample :
    detect_webhook_type "https://attacker.example/discord.com" = "discord" ∧
    url_hostname "https://attacker.example/discord.com" = "attacker.example" ∧
    DISCORD_HOSTS.contains "attacker.example" = false ∧
    SLACK_HOSTS.contains "attacker.example" = false := by
  refine ⟨by decide, by decide, by decide, by decide⟩

/-- C9 (amended): a destination is classified as Discord or Slack by the
explicit type tag or by a case-insensitive substring search for a known
provider host anywhere in the URL string (not by the parsed host alone),
and send_stock_notification with a tag that is neither returns
(False, error) with no URL posted, i.e. before any network call and
without raising. -/
theorem spec_c9 (transport : String → Bool × Option String) (wt url : String)
    (h1 : wt ≠ "discord") (h2 : wt ≠ "slack") :
    send_stock_notification transport wt url =
      ((false, some ("Unknown webhook type: " ++ wt)), []) := by
  simp [send_stock_notification, h1, h2]

/-- Witness for C9: an msteams-tagged delivery is rejected with no post,
whatever the transport would have answered. -/
theorem spec_c9_witness :
    send_stock_notification (fun _ => (true, none)) "msteams" "https://example.com/hook" =
      ((false, some ("Unknown webhook type: " ++ "msteams")), []) :=
  spec_c9 (fun _ => (true, none)) "msteams" "https://example.com/hook"
    (by decide) (by decide)

/-- C4: a URL whose hostname resolves only to loopback, private, link-local,
reserved or otherwise non-global addresses (in any resolved family) is
rejected by validate_webhook_url, which performs no network call to the
destination; and any URL not beginning with https:// is rejected. -/
theorem spec_c4 :
    (∀ (resolver : String → Except String (List String))
      (classify : String → IPClass) (url : String) (wt : Option String)
      (ips : List String),
      resolver (url_hostname url) = .ok ips → ips ≠ [] →
      (∀ ip ∈ ips, (classify ip).is_loopback = true ∨ (classify ip).is_private = true ∨
        (classify ip).is_link_local = true ∨ (classify ip).is_reserved = true ∨
        (classify ip).is_global = false) →
      (validate_webhook_url resolver classify url wt).1 = false) ∧
    (∀ (resolver : String → Except String (List String))
      (classify : String → IPClass) (url : String) (wt : Option String),
      starts_with_https url = false →
      (validate_webhook_url resolver classify url wt).1 = false) := by
  constructor
  · intro resolver classify url wt ips hres hne hall
    rw [validate_webhook_url]
    by_cases hurl : url = ""
    · simp [hurl]
    rw [if_neg hurl]
    rcases hhttps : starts_with_https url with _ | _
    · simp
    simp only [Bool.true_eq_false, if_false]
    split
    · rfl
    split
    · rfl
    by_cases hhost : url_hostname url = ""
    · simp [hhost]
    rw [if_neg hhost]
    rcases ips with _ | ⟨ip, rest⟩
    · exact absurd rfl hne
    have hpriv : is_private_ip classify ip = true := by
      rcases hall ip (List.mem_cons_self _ _) with h | h | h | h | h <;>
        · rw [is_private_ip]
          rcases hv : (classify ip).valid with _ | _
          · simp
          · simp [h]
    rw [resolve_and_validate_host, hres]
    simp [List.find?_cons, hpriv]
  · intro resolver classify url wt h
    rw [validate_webhook_url]
    by_cases hurl : url = ""
    · simp [hurl]
    simp [hurl, h]

/-- Witness for C4: a well-formed Discord URL whose hostname resolves to the
loopback address 127.0.0.1 only is rejected, and a plain http URL is
rejected. -/
theorem spec_c4_witness :
    (validate_webhook_url (fun _ => .ok ["127.0.0.1"])
      (fun _ => ⟨true, false, true, false, false, false, false⟩)
      "https://discord.com/api/webhooks/1/abc" none).1 = false ∧
    (validate_webhook_url (fun _ => .ok [])
      (fun _ => ⟨true, false, false, false, false, false, true⟩)
      "http://discord.com/api/webhooks/1/abc" none).1 = false :=
  ⟨spec_c4.1 (fun _ => .ok ["127.0.0.1"])
      (fun _ => ⟨true, false, true, false, false, false, false⟩)
      "https://discord.com/api/webhooks/1/abc" none ["127.0.0.1"] rfl (by decide)
      (by intro ip hip; exact Or.inl rfl),
   spec_c4.2 (fun _ => .ok [])
      (fun _ => ⟨true, false, false, false, false, false, true⟩)
      "http://discord.com/api/webhooks/1/abc" none (by decide)⟩

/-- C3: in one send_notifications_to_all fanout, every recipient gets an
attempted delivery whose outcome is a function of that recipient alone (so
a transport failure for an earlier recipient never blocks a later one and
nothing raises), and every attempt — default sink or per-user, success or
failure — is appended to the history with its success flag and error
detail. -/
theorem spec_c3 (env : Env) (db : DB) (plan : String) (dc : JVal) (minutes : Nat)
    (sub : String) :
    (send_notifications_to_all env db plan dc minutes sub).2.user_webhooks =
      (env.subscribers plan sub).map (fun u =>
        ⟨u.user_id, u.webhook_id,
         (send_discord_notification env.transport u.webhook_url).1,
         (send_discord_notification env.transport u.webhook_url).2⟩) ∧
    (send_notifications_to_all env db plan dc minutes sub).1.user_notification_history =
      db.user_notification_history ++
        (match get_config db "discord_webhook_url" with
         | some u =>
           if u = "" then []
           else [⟨none, none, plan, dc, fanout_user_message minutes,
             (send_discord_notification env.transport u).1,
             (send_discord_notification env.transport u).2, true⟩]
         | none => []) ++
        (env.subscribers plan sub).map (fun u =>
          ⟨some u.user_id, some u.webhook_id, plan, dc, fanout_user_message minutes,
           (send_discord_notification env.transport u.webhook_url).1,
           (send_discord_notification env.transport u.webhook_url).2, false⟩) ∧
    (send_notifications_to_all env db plan dc minutes sub).1.notification_history =
      db.notification_history ++
        (match get_config db "discord_webhook_url" with
         | some u =>
           if u = "" then []
           else [⟨plan, sub, dc, fanout_default_message minutes,
             (send_discord_notification env.transport u).1,
             (send_discord_notification env.transport u).2⟩]
         | none => []) := by
  rcases h : get_config db "discord_webhook_url" with _ | u
  · simp only [send_notifications_to_all, h]
    rw [fanout_fold_spec]
    simp
  · by_cases hu : u = ""
    · simp only [send_notifications_to_all, h, hu, if_pos]
      rw [fanout_fold_spec]
      simp
    · simp only [send_notifications_to_all, h, if_neg hu]
      rw [fanout_fold_spec]
      simp [save_notification, save_user_notification, hu]

/-- A one-datacenter OVH response whose Linux status is the exact string
"available" (the shape parsed by parse_availability). -/
def availability_response (dc code : JVal) : JVal :=
  .obj (.cons "datacenters" (.arr (.cons (.obj (.cons "datacenter" dc
    (.cons "code" code (.cons "linuxStatus" (.str "available") .nil)))) .nil)) .nil)

lemma parse_availability_response (dc code : JVal) :
    parse_availability (availability_response dc code) =
      [⟨dc, code, true, .str "available"⟩] := by
  have hbe : (JVal.str "available" == JVal.str "available") = true := by decide
  simp [availability_response, parse_availability, pyFalsy, JFields.lookup,
    parse_datacenters, parse_entry, hbe]

/-- The unavailable-to-available branch of the check_plan loop body: with
the previous status unavailable and one open interval opened at t0, the
fanout fires at time t0 + D exactly when D reaches the threshold. -/
lemma get_config_eq_find (db : DB) (key : String) :
    get_config db key = (db.config.find? (fun kv => kv.1 == key)).map (fun kv => kv.2) := rfl

/-- The unavailable-to-available branch of the check_plan loop body: with
the previous status unavailable and one open interval opened at t0, the
fanout fires at time t0 + D exactly when D reaches the threshold. -/
lemma process_after_location_transition (env : Env) (plan sub : String) (t0 D : Nat)
    (a : Avail) (raw : JVal) (db : DB)
    (ha : a.is_available = true)
    (hlast : get_last_status db plan a.datacenter sub = some false)
    (hopen : (open_rows db plan a.datacenter sub).map
      (fun r => r.out_of_stock_since) = [t0])
    (hthr : 1 ≤ get_notification_threshold
      (get_config db "notification_threshold_minutes") env.settings_threshold) :
    events_of (process_after_location env plan sub (t0 + D) a raw db) =
      if (D : Int) ≥ get_notification_threshold
          (get_config db "notification_threshold_minutes") env.settings_threshold
      then [⟨plan, a.datacenter, D⟩] else [] := by
  rcases hor : open_rows db plan a.datacenter sub with _ | ⟨r, rest⟩
  · rw [hor] at hopen
    exact absurd hopen (by simp)
  rw [hor] at hopen
  have hpair : r.out_of_stock_since = t0 ∧
      (rest.map fun r => r.out_of_stock_since) = [] := by simpa using hopen
  have hrest : rest = [] := by
    cases rest with
    | nil => rfl
    | cons x xs => simpa using hpair.2
  have hsince : r.out_of_stock_since = t0 := hpair.1
  rw [process_after_location]
  simp only [hlast, ha, reduceIte, mark_returned_to_stock]
  rw [show open_rows (save_inventory_status db plan sub a.datacenter a.datacenter_code
      true a.linux_status raw (t0 + D)) plan a.datacenter sub = r :: rest from
    (open_rows_tracking_eq (save_inventory_status_fields db plan sub a.datacenter
      a.datacenter_code true a.linux_status raw (t0 + D)).2.2 plan a.datacenter sub).trans hor]
  simp only [List.head?_cons, hsince, Nat.add_sub_cancel_left, get_config_eq_find,
    save_inventory_status]
  by_cases hD : D = 0
  · subst hD
    simp only [reduceIte, events_of]
    rw [if_neg]
    rw [get_config_eq_find] at hthr
    intro hge
    omega
  · rw [get_config_eq_find] at hthr
    simp only [if_neg hD]
    by_cases hge : (D : Int) ≥ get_notification_threshold
        ((db.config.find? (fun kv => kv.1 == "notification_threshold_minutes")).map
          (fun kv => kv.2)) env.settings_threshold
    · rw [if_pos hge, if_pos ⟨hD, hge⟩]
      rfl
    · rw [if_neg hge, if_neg (by intro hc; exact hge hc.2)]
      rfl

lemma process_after_location_ok (env : Env) (plan sub : String) (now : Nat) (a : Avail)
    (raw : JVal) (db : DB) :
    ∃ p, process_after_location env plan sub now a raw db = .ok p := by
  simp only [process_after_location]
  repeat' split
  all_goals exact ⟨_, rfl⟩

/-- C1: on an unavailable-to-available transition closing the open interval
of duration D minutes, check_plan invokes send_notifications_to_all exactly
when D is at least the configured threshold T (read dynamically from the
config store, clamped into [1, 1440] so that 1 ≤ T). -/
theorem spec_c1 (env : Env) (plan sub : String) (dc code : JVal) (db : DB)
    (now t0 D : Nat)
    (hnow : now = t0 + D)
    (hlast : get_last_status db plan dc sub = some false)
    (hopen : (open_rows db plan dc sub).map (fun r => r.out_of_stock_since) = [t0])
    (hloc : pyFalsy code = true ∨ env.loc_fail code = false)
    (hthr : 1 ≤ get_notification_threshold
      (get_config db "notification_threshold_minutes") env.settings_threshold) :
    events_of (check_plan env plan sub (some (availability_response dc code)) db now) =
      if (D : Int) ≥ get_notification_threshold
          (get_config db "notification_threshold_minutes") env.settings_threshold
      then [⟨plan, dc, D⟩] else [] := by
  subst hnow
  rw [check_plan, parse_availability_response]
  simp only [List.isEmpty_cons, reduceIte, Bool.false_eq_true]
  rw [check_plan_loop, process_availability]
  by_cases hcode : pyFalsy code = true
  · rw [if_pos hcode]
    obtain ⟨⟨db', evs'⟩, hok⟩ := process_after_location_ok env plan sub (t0 + D)
      ⟨dc, code, true, .str "available"⟩ (availability_response dc code) db
    have htrans := process_after_location_transition env plan sub t0 D
      ⟨dc, code, true, .str "available"⟩ (availability_response dc code) db rfl
      hlast hopen hthr
    rw [hok] at htrans
    rw [hok]
    simpa [check_plan_loop, events_of] using htrans
  · have hfail : env.loc_fail code = false := by
      rcases hloc with h | h
      · exact absurd h hcode
      · exact h
    rw [if_neg hcode, if_neg (by simp [hfail])]
    set db2 := upsert_datacenter_location db code sub (env.loc_info code) with hdb2
    have hfields := upsert_datacenter_location_fields db code sub (env.loc_info code)
    have hlast2 : get_last_status db2 plan dc sub = some false := by
      rw [hdb2, get_last_status_inventory_eq hfields.2.1]
      exact hlast
    have hopen2 : (open_rows db2 plan dc sub).map (fun r => r.out_of_stock_since) = [t0] := by
      rw [hdb2, open_rows_tracking_eq hfields.2.2]
      exact hopen
    have hconf2 : get_config db2 "notification_threshold_minutes" =
        get_config db "notification_threshold_minutes" :=
      get_config_config_eq hfields.1 _
    obtain ⟨⟨db', evs'⟩, hok⟩ := process_after_location_ok env plan sub (t0 + D)
      ⟨dc, code, true, .str "available"⟩ (availability_response dc code) db2
    have htrans := process_after_location_transition env plan sub t0 D
      ⟨dc, code, true, .str "available"⟩ (availability_response dc code) db2 rfl
      hlast2 hopen2 (by rw [hconf2]; exact hthr)
    rw [hok] at htrans
    rw [hconf2] at htrans
    rw [hok]
    simpa [check_plan_loop, events_of] using htrans

/-- Witness for C1 (the spec examples): with threshold 60 stored, an
interval of 59 minutes produces no fanout and one of 60 minutes produces
exactly one. -/
theorem spec_c1_witness :
    events_of (check_plan
      ⟨fun _ => false, fun _ => ⟨"", "", "", "", "", ""⟩, fun _ => (true, none),
        fun _ _ => [], 60⟩ "vps-1" "US"
      (some (availability_response (.str "us-east") (.str "")))
      ⟨[("notification_threshold_minutes", "60")],
       [⟨"vps-1", "US", .str "us-east", .str "", false, .str "out-of-stock", .null, 0⟩],
       [⟨"vps-1", "US", .str "us-east", 0, none⟩], [], [], []⟩ 59) = [] ∧
    events_of (check_plan
      ⟨fun _ => false, fun _ => ⟨"", "", "", "", "", ""⟩, fun _ => (true, none),
        fun _ _ => [], 60⟩ "vps-1" "US"
      (some (availability_response (.str "us-east") (.str "")))
      ⟨[("notification_threshold_minutes", "60")],
       [⟨"vps-1", "US", .str "us-east", .str "", false, .str "out-of-stock", .null, 0⟩],
       [⟨"vps-1", "US", .str "us-east", 0, none⟩], [], [], []⟩ 60) =
      [⟨"vps-1", .str "us-east", 60⟩] := by
  constructor
  · have h := spec_c1
      ⟨fun _ => false, fun _ => ⟨"", "", "", "", "", ""⟩, fun _ => (true, none),
        fun _ _ => [], 60⟩ "vps-1" "US" (.str "us-east") (.str "")
      ⟨[("notification_threshold_minutes", "60")],
       [⟨"vps-1", "US", .str "us-east", .str "", false, .str "out-of-stock", .null, 0⟩],
       [⟨"vps-1", "US", .str "us-east", 0, none⟩], [], [], []⟩
      59 0 59 rfl (by decide) (by decide) (Or.inl (by decide)) (by decide)
    rw [h]
    decide
  · have h := spec_c1
      ⟨fun _ => false, fun _ => ⟨"", "", "", "", "", ""⟩, fun _ => (true, none),
        fun _ _ => [], 60⟩ "vps-1" "US" (.str "us-east") (.str "")
      ⟨[("notification_threshold_minutes", "60")],
       [⟨"vps-1", "US", .str "us-east", .str "", false, .str "out-of-stock", .null, 0⟩],
       [⟨"vps-1", "US", .str "us-east", 0, none⟩], [], [], []⟩
      60 0 60 rfl (by decide) (by decide) (Or.inl (by decide)) (by decide)
    rw [h]
    decide

/-- Environment in which upsert_datacenter_location raises for every
datacenter code. -/
def c5_env : Env :=
  ⟨fun _ => true, fun _ => ⟨"", "", "", "", "", ""⟩, fun _ => (true, none),
   fun _ _ => [], 60⟩

/-- A response with one available datacenter whose code is truthy. -/
def c5_data : JVal :=
  .obj (.cons "datacenters" (.arr (.cons (.obj (.cons "datacenter" (.str "gra")
    (.cons "code" (.str "GRA") (.cons "linuxStatus" (.str "available") .nil)))) .nil)) .nil)

/-- C5 counterexample: when upsert_datacenter_location raises for the
datacenter seen, check_plan aborts with the exception (Except.error), the
observation is NOT recorded (inventory_status stays empty) and transition
detection does not run, contradicting the claim that the upsert failure
does not abort the detection process. -/
theorem spec_c5_counterexample :
    check_plan c5_env "vps-x" "US" (some c5_data) db_empty 0 = .error db_empty ∧
    (state_of (check_plan c5_env "vps-x" "US" (some c5_data) db_empty 0)).inventory_status
      = [] ∧
    events_of (check_plan c5_env "vps-x" "US" (some c5_data) db_empty 0) = [] := by
  refine ⟨rfl, by decide, by decide⟩

/-- C5 (amended): a raising datacenter-location upsert for a truthy
datacenter code aborts check_plan for that whole batch with the state
exactly as already written (no observation for that datacenter, no interval
mutation, no fanout); the exception is caught per-plan by run_check_cycle,
which still records one outcome for every monitored plan of the cycle. -/
theorem spec_c5 :
    (∀ (env : Env) (plan sub : String) (now : Nat) (raw : JVal) (a : Avail)
      (rest : List Avail) (db : DB) (evs : List FanoutCall),
      pyFalsy a.datacenter_code = false → env.loc_fail a.datacenter_code = true →
      check_plan_loop env plan sub now raw (a :: rest) db evs = .error db) ∧
    (∀ (env : Env) (sub : String) (plans : List (String × Option JVal)) (db : DB)
      (now : Nat), ((run_check_cycle env sub plans db now).2).length = plans.length) := by
  constructor
  · intro env plan sub now raw a rest db evs hcode hfail
    rw [check_plan_loop, process_availability, if_neg (by simp [hcode]), if_pos hfail]
  · intro env sub plans db now
    have := run_check_cycle_outcomes env sub now plans db []
    simpa [run_check_cycle] using this

/-- Witness for C5 (amended): the concrete aborting batch of the
counterexample, and a two-plan cycle in the always-raising environment
still attempts both plans. -/
theorem spec_c5_witness :
    check_plan_loop c5_env "vps-x" "US" 0 c5_data
      [⟨.str "gra", .str "GRA", true, .str "available"⟩] db_empty [] = .error db_empty ∧
    ((run_check_cycle c5_env "US" [("a", some c5_data), ("b", some c5_data)]
      db_empty 0).2).length = 2 :=
  ⟨spec_c5.1 c5_env "vps-x" "US" 0 c5_data ⟨.str "gra", .str "GRA", true, .str "available"⟩
      [] db_empty [] (by decide) (by decide),
   spec_c5.2 c5_env "US" [("a", some c5_data), ("b", some c5_data)] db_empty 0⟩

/-! ## The at-most-one-open-interval invariant (C2) -/

/-- P1: at most one open OutOfStockTracking row per (plan, datacenter,
subsidiary) key. -/
def InvDB (db : DB) : Prop :=
  ∀ (plan : String) (dc : JVal) (sub : String), (open_rows db plan dc sub).length ≤ 1

lemma inv_tracking_eq {db db' : DB}
    (h : db'.out_of_stock_tracking = db.out_of_stock_tracking) (hi : InvDB db) :
    InvDB db' := by
  intro p dc s
  rw [open_rows_tracking_eq h]
  exact hi p dc s

lemma length_filter_map_le {α : Type} (f : α → α) (p : α → Bool)
    (h : ∀ a, p (f a) = true → p a = true) :
    ∀ l : List α, ((l.map f).filter p).length ≤ (l.filter p).length
  | [] => le_refl _
  | a :: tl => by
    simp only [List.map_cons, List.filter_cons]
    cases hfa : p (f a)
    · cases hpa : p a
      · simpa using length_filter_map_le f p h tl
      · simpa using Nat.le_succ_of_le (length_filter_map_le f p h tl)
    · rw [h a hfa]
      simpa using length_filter_map_le f p h tl

lemma inv_track (db : DB) (p : String) (dc : JVal) (s : String) (n : Nat)
    (h : InvDB db) : InvDB (track_out_of_stock db p dc s n) := by
  intro p2 dc2 s2
  rw [track_out_of_stock]
  split
  case isTrue hemp =>
    show ((⟨p, s, dc, n, none⟩ :: db.out_of_stock_tracking).filter
      (track_key_open p2 dc2 s2)).length ≤ 1
    rw [List.filter_cons]
    split
    case isTrue hpred =>
      obtain ⟨h1, h2, h3, _⟩ := (track_key_open_iff p2 dc2 s2 _).mp hpred
      have hemp' : open_rows db p dc s = [] := List.isEmpty_iff.mp hemp
      have : open_rows db p2 dc2 s2 = [] := by
        rw [show p2 = p from h1.symm, show dc2 = dc from h2.symm,
          show s2 = s from h3.symm]
        exact hemp'
      simpa [open_rows] using congrArg List.length this
    case isFalse =>
      exact h p2 dc2 s2
  case isFalse =>
    exact h p2 dc2 s2

lemma inv_mark (db : DB) (p : String) (dc : JVal) (s : String) (n : Nat)
    (h : InvDB db) : InvDB (mark_returned_to_stock db p dc s n).2 := by
  intro p2 dc2 s2
  have hcond : ∀ r : OutOfStockTrackingRow,
      track_key_open p2 dc2 s2 (if track_key_open p dc s r then
        { r with returned_to_stock_at := some n } else r) = true →
      track_key_open p2 dc2 s2 r = true := by
    intro r hr
    by_cases hk : track_key_open p dc s r = true
    · rw [if_pos hk] at hr
      obtain ⟨_, _, _, h4⟩ := (track_key_open_iff p2 dc2 s2 _).mp hr
      exact absurd h4 (by simp)
    · rwa [if_neg hk] at hr
  calc (open_rows (mark_returned_to_stock db p dc s n).2 p2 dc2 s2).length
      = ((db.out_of_stock_tracking.map (fun r => if track_key_open p dc s r then
          { r with returned_to_stock_at := some n } else r)).filter
            (track_key_open p2 dc2 s2)).length := rfl
    _ ≤ (db.out_of_stock_tracking.filter (track_key_open p2 dc2 s2)).length :=
        length_filter_map_le _ _ hcond _
    _ ≤ 1 := h p2 dc2 s2

lemma inv_process_after (env : Env) (plan sub : String) (now : Nat) (a : Avail)
    (raw : JVal) (db : DB) (h : InvDB db) :
    InvDB (state_of (process_after_location env plan sub now a raw db)) := by
  have hdb1 : InvDB (save_inventory_status db plan sub a.datacenter a.datacenter_code
      a.is_available a.linux_status raw now) :=
    inv_tracking_eq (save_inventory_status_fields db plan sub a.datacenter
      a.datacenter_code a.is_available a.linux_status raw now).2.2 h
  simp only [process_after_location]
  split
  · split
    · split
      · split
        · exact inv_tracking_eq
            (send_notifications_fields env _ plan a.datacenter _ sub).2.2
            (inv_mark _ _ _ _ _ hdb1)
        · exact inv_mark _ _ _ _ _ hdb1
      · exact inv_mark _ _ _ _ _ hdb1
    · exact hdb1
  · exact inv_track _ _ _ _ _ hdb1

lemma inv_process (env : Env) (plan sub : String) (now : Nat) (a : Avail)
    (raw : JVal) (db : DB) (h : InvDB db) :
    InvDB (state_of (process_availability env plan sub now a raw db)) := by
  rw [process_availability]
  split
  · exact inv_process_after env plan sub now a raw db h
  · split
    · exact h
    · exact inv_process_after env plan sub now a raw _
        (inv_tracking_eq (upsert_datacenter_location_fields db a.datacenter_code sub
          (env.loc_info a.datacenter_code)).2.2 h)

lemma inv_loop (env : Env) (plan sub : String) (now : Nat) (raw : JVal) :
    ∀ (avails : List Avail) (db : DB) (evs : List FanoutCall), InvDB db →
      InvDB (state_of (check_plan_loop env plan sub now raw avails db evs))
  | [], db, evs, h => h
  | a :: rest, db, evs, h => by
    rw [check_plan_loop]
    rcases hp : process_availability env plan sub now a raw db with e | ⟨db', evs'⟩
    · have := inv_process env plan sub now a raw db h
      rw [hp] at this
      exact this
    · have hdb' : InvDB db' := by
        have := inv_process env plan sub now a raw db h
        rw [hp] at this
        exact this
      exact inv_loop env plan sub now raw rest db' (evs ++ evs') hdb'

lemma inv_check_plan (env : Env) (plan sub : String) (data : Option JVal) (db : DB)
    (now : Nat) (h : InvDB db) :
    InvDB (state_of (check_plan env plan sub data db now)) := by
  rcases data with _ | d
  · exact h
  · rw [check_plan]
    split
    · exact h
    · exact inv_loop env plan sub now d (parse_availability d) db [] h

/-- One operation on the tracking state: the two database operations of the
out-of-stock life cycle, or a whole check_plan run for one fetched
response. -/
inductive DBOp where
  | track (plan : String) (dc : JVal) (sub : String) (now : Nat)
  | mark (plan : String) (dc : JVal) (sub : String) (now : Nat)
  | check (env : Env) (plan sub : String) (data : Option JVal) (now : Nat)

def apply_op (db : DB) : DBOp → DB
  | .track p dc s n => track_out_of_stock db p dc s n
  | .mark p dc s n => (mark_returned_to_stock db p dc s n).2
  | .check env p s d n => state_of (check_plan env p s d db n)

lemma inv_apply_op (db : DB) (op : DBOp) (h : InvDB db) : InvDB (apply_op db op) := by
  cases op with
  | track p dc s n => exact inv_track db p dc s n h
  | mark p dc s n => exact inv_mark db p dc s n h
  | check env p s d n => exact inv_check_plan env p s d db n h

lemma inv_foldl : ∀ (ops : List DBOp) (db : DB), InvDB db →
    InvDB (ops.foldl apply_op db)
  | [], _, h => h
  | op :: rest, db, h => inv_foldl rest (apply_op db op) (inv_apply_op db op h)

/-- C2: starting from the empty database, any sequence of check_plan,
track_out_of_stock and mark_returned_to_stock operations leaves at most one
open OutOfStockTracking row (returned_to_stock_at null) per (plan_code,
subsidiary, datacenter) key, because track_out_of_stock checks for an
existing open row before inserting. -/
theorem spec_c2 (ops : List DBOp) (plan : String) (dc : JVal) (sub : String) :
    (open_rows (ops.foldl apply_op db_empty) plan dc sub).length ≤ 1 :=
  inv_foldl ops db_empty (fun _ _ _ => by simp [db_empty, open_rows]) plan dc sub

/-! ## Repeated identical observations (C8) -/

/-- Run the check_plan loop body for the same parsed observation once per
listed time, threading the state (one check cycle processes the key once;
N cycles in a row give N processings). -/
def repeat_observation (env : Env) (plan sub : String) (a : Avail) (raw : JVal)
    (ts : List Nat) (db : DB) : DB :=
  ts.foldl (fun d t => state_of (process_availability env plan sub t a raw d)) db

lemma process_after_inventory (env : Env) (plan sub : String) (now : Nat) (a : Avail)
    (raw : JVal) (db : DB) :
    (state_of (process_after_location env plan sub now a raw db)).inventory_status =
      ⟨plan, sub, a.datacenter, a.datacenter_code, a.is_available, a.linux_status, raw, now⟩
        :: db.inventory_status := by
  have hsave := (save_inventory_status_fields db plan sub a.datacenter a.datacenter_code
    a.is_available a.linux_status raw now).2.1
  simp only [process_after_location]
  split
  · split
    · split
      · split
        · rw [state_of, (send_notifications_fields env _ plan a.datacenter _ sub).2.1,
            (mark_returned_fields _ plan a.datacenter sub now).2.1]
          exact hsave
        · rw [state_of, (mark_returned_fields _ plan a.datacenter sub now).2.1]
          exact hsave
      · rw [state_of, (mark_returned_fields _ plan a.datacenter sub now).2.1]
        exact hsave
    · rw [state_of]
      exact hsave
  · rw [state_of, (track_out_of_stock_fields _ plan a.datacenter sub now).2.1]
    exact hsave

lemma process_inventory (env : Env) (plan sub : String) (now : Nat) (a : Avail)
    (raw : JVal) (db : DB)
    (hloc : pyFalsy a.datacenter_code = true ∨ env.loc_fail a.datacenter_code = false) :
    (state_of (process_availability env plan sub now a raw db)).inventory_status =
      ⟨plan, sub, a.datacenter, a.datacenter_code, a.is_available, a.linux_status, raw, now⟩
        :: db.inventory_status := by
  rw [process_availability]
  by_cases hcode : pyFalsy a.datacenter_code = true
  · rw [if_pos hcode]
    exact process_after_inventory env plan sub now a raw db
  · have hfail : env.loc_fail a.datacenter_code = false := by
      rcases hloc with h | h
      · exact absurd h hcode
      · exact h
    rw [if_neg hcode, if_neg (by simp [hfail]),
      process_after_inventory env plan sub now a raw _,
      (upsert_datacenter_location_fields db a.datacenter_code sub
        (env.loc_info a.datacenter_code)).2.1]

lemma process_after_steady (env : Env) (plan sub : String) (now : Nat) (a : Avail)
    (raw : JVal) (db : DB)
    (hl : get_last_status db plan a.datacenter sub = some a.is_available)
    (hop : a.is_available = false → open_rows db plan a.datacenter sub ≠ []) :
    (state_of (process_after_location env plan sub now a raw db)).out_of_stock_tracking =
      db.out_of_stock_tracking := by
  cases ha : a.is_available
  · have hsave := save_inventory_status_fields db plan sub a.datacenter a.datacenter_code
      false a.linux_status raw now
    rw [ha] at hl
    simp only [process_after_location, ha, Bool.false_eq_true, reduceIte]
    rw [state_of, track_out_of_stock,
      if_neg (by
        rw [open_rows_tracking_eq hsave.2.2]
        simp only [List.isEmpty_iff]
        exact hop ha)]
    exact hsave.2.2
  · have hsave := save_inventory_status_fields db plan sub a.datacenter a.datacenter_code
      true a.linux_status raw now
    rw [ha] at hl
    simp only [process_after_location, ha, reduceIte]
    rw [if_neg (by simp [hl]), state_of]
    exact hsave.2.2

lemma process_steady (env : Env) (plan sub : String) (now : Nat) (a : Avail)
    (raw : JVal) (db : DB)
    (hloc : pyFalsy a.datacenter_code = true ∨ env.loc_fail a.datacenter_code = false)
    (hl : get_last_status db plan a.datacenter sub = some a.is_available)
    (hop : a.is_available = false → open_rows db plan a.datacenter sub ≠ []) :
    (state_of (process_availability env plan sub now a raw db)).out_of_stock_tracking =
      db.out_of_stock_tracking := by
  rw [process_availability]
  by_cases hcode : pyFalsy a.datacenter_code = true
  · rw [if_pos hcode]
    exact process_after_steady env plan sub now a raw db hl hop
  · have hfail : env.loc_fail a.datacenter_code = false := by
      rcases hloc with h | h
      · exact absurd h hcode
      · exact h
    have hup := upsert_datacenter_location_fields db a.datacenter_code sub
      (env.loc_info a.datacenter_code)
    rw [if_neg hcode, if_neg (by simp [hfail])]
    rw [process_after_steady env plan sub now a raw _
      (by rw [get_last_status_inventory_eq hup.2.1]; exact hl)
      (by intro hfalse; rw [open_rows_tracking_eq hup.2.2]; exact hop hfalse)]
    exact hup.2.2

lemma get_last_status_of_head {db' : DB} (plan sub : String) (a : Avail) (raw : JVal)
    (now : Nat) (rest : List InventoryStatusRow)
    (h : db'.inventory_status =
      ⟨plan, sub, a.datacenter, a.datacenter_code, a.is_available, a.linux_status, raw, now⟩
        :: rest) :
    get_last_status db' plan a.datacenter sub = some a.is_available := by
  rw [get_last_status, h]
  simp [List.find?_cons]

lemma track_open_nonempty (db : DB) (p : String) (dc : JVal) (s : String) (n : Nat) :
    open_rows (track_out_of_stock db p dc s n) p dc s ≠ [] := by
  rw [track_out_of_stock]
  split
  case isTrue hemp =>
    have hpred : track_key_open p dc s ⟨p, s, dc, n, none⟩ = true :=
      (track_key_open_iff p dc s _).mpr ⟨rfl, rfl, rfl, rfl⟩
    show ((⟨p, s, dc, n, none⟩ :: db.out_of_stock_tracking).filter
      (track_key_open p dc s)) ≠ []
    rw [List.filter_cons, if_pos hpred]
    exact List.cons_ne_nil _ _
  case isFalse hemp =>
    intro hnil
    exact hemp (List.isEmpty_iff.mpr hnil)

lemma process_open_nonempty (env : Env) (plan sub : String) (now : Nat) (a : Avail)
    (raw : JVal) (db : DB)
    (hloc : pyFalsy a.datacenter_code = true ∨ env.loc_fail a.datacenter_code = false)
    (ha : a.is_available = false) :
    open_rows (state_of (process_availability env plan sub now a raw db))
      plan a.datacenter sub ≠ [] := by
  rw [process_availability]
  by_cases hcode : pyFalsy a.datacenter_code = true
  · rw [if_pos hcode]
    simp only [process_after_location, ha, Bool.false_eq_true, reduceIte, state_of]
    exact track_open_nonempty _ plan a.datacenter sub now
  · have hfail : env.loc_fail a.datacenter_code = false := by
      rcases hloc with h | h
      · exact absurd h hcode
      · exact h
    rw [if_neg hcode, if_neg (by simp [hfail])]
    simp only [process_after_location, ha, Bool.false_eq_true, reduceIte, state_of]
    exact track_open_nonempty _ plan a.datacenter sub now

lemma repeat_steady (env : Env) (plan sub : String) (a : Avail) (raw : JVal)
    (hloc : pyFalsy a.datacenter_code = true ∨ env.loc_fail a.datacenter_code = false) :
    ∀ (ts : List Nat) (db : DB),
      get_last_status db plan a.datacenter sub = some a.is_available →
      (a.is_available = false → open_rows db plan a.datacenter sub ≠ []) →
      (repeat_observation env plan sub a raw ts db).out_of_stock_tracking =
        db.out_of_stock_tracking ∧
      (repeat_observation env plan sub a raw ts db).inventory_status.length =
        db.inventory_status.length + ts.length
  | [], db, _, _ => ⟨rfl, rfl⟩
  | t :: ts, db, hl, hop => by
    have hinv := process_inventory env plan sub t a raw db hloc
    have htr := process_steady env plan sub t a raw db hloc hl hop
    have hl' := get_last_status_of_head plan sub a raw t db.inventory_status hinv
    have hop' : a.is_available = false →
        open_rows (state_of (process_availability env plan sub t a raw db))
          plan a.datacenter sub ≠ [] := by
      intro hfalse
      rw [open_rows_tracking_eq htr]
      exact hop hfalse
    have ih := repeat_steady env plan sub a raw hloc ts
      (state_of (process_availability env plan sub t a raw db)) hl' hop'
    refine ⟨?_, ?_⟩
    · show (repeat_observation env plan sub a raw ts _).out_of_stock_tracking = _
      rw [ih.1, htr]
    · show (repeat_observation env plan sub a raw ts _).inventory_status.length = _
      rw [ih.2, hinv]
      simp
      omega

/-- C8: processing the same availability observation once per listed time
appends exactly one observation record per processing, and the interval
(tracking) state after the whole run equals the state after the first
processing — repeated identical observations mutate no interval state after
the first. -/
theorem spec_c8 (env : Env) (plan sub : String) (a : Avail) (raw : JVal)
    (t : Nat) (ts : List Nat) (db : DB)
    (henv : ∀ c : JVal, env.loc_fail c = false) :
    (repeat_observation env plan sub a raw (t :: ts) db).inventory_status.length =
      db.inventory_status.length + (t :: ts).length ∧
    (repeat_observation env plan sub a raw (t :: ts) db).out_of_stock_tracking =
      (repeat_observation env plan sub a raw [t] db).out_of_stock_tracking := by
  have hloc : pyFalsy a.datacenter_code = true ∨ env.loc_fail a.datacenter_code = false :=
    Or.inr (henv _)
  have hinv := process_inventory env plan sub t a raw db hloc
  have hl' := get_last_status_of_head plan sub a raw t db.inventory_status hinv
  have hop' : a.is_available = false →
      open_rows (state_of (process_availability env plan sub t a raw db))
        plan a.datacenter sub ≠ [] :=
    fun hfalse => process_open_nonempty env plan sub t a raw db hloc hfalse
  have hsteady := repeat_steady env plan sub a raw hloc ts
    (state_of (process_availability env plan sub t a raw db)) hl' hop'
  constructor
  · show (repeat_observation env plan sub a raw ts _).inventory_status.length = _
    rw [hsteady.2, hinv]
    simp
    omega
  · show (repeat_observation env plan sub a raw ts _).out_of_stock_tracking = _
    rw [hsteady.1]
    rfl

/-- Witness for C8: three identical unavailable observations write three
observation rows and leave the tracking state of the first processing
unchanged. -/
theorem spec_c8_witness :
    (repeat_observation
      ⟨fun _ => false, fun _ => ⟨"", "", "", "", "", ""⟩, fun _ => (true, none),
        fun _ _ => [], 60⟩ "vps-8" "US" ⟨.str "waw", .str "", false, .str "out-of-stock"⟩
      .null [3, 5, 9] db_empty).inventory_status.length =
      db_empty.inventory_status.length + ([3, 5, 9] : List Nat).length ∧
    (repeat_observation
      ⟨fun _ => false, fun _ => ⟨"", "", "", "", "", ""⟩, fun _ => (true, none),
        fun _ _ => [], 60⟩ "vps-8" "US" ⟨.str "waw", .str "", false, .str "out-of-stock"⟩
      .null [3, 5, 9] db_empty).out_of_stock_tracking =
      (repeat_observation
        ⟨fun _ => false, fun _ => ⟨"", "", "", "", "", ""⟩, fun _ => (true, none),
          fun _ _ => [], 60⟩ "vps-8" "US" ⟨.str "waw", .str "", false, .str "out-of-stock"⟩
        .null [3] db_empty).out_of_stock_tracking :=
  spec_c8 ⟨fun _ => false, fun _ => ⟨"", "", "", "", "", ""⟩, fun _ => (true, none),
      fun _ _ => [], 60⟩ "vps-8" "US" ⟨.str "waw", .str "", false, .str "out-of-stock"⟩
    .null 3 [5, 9] db_empty (fun _ => rfl)
